import Mathlib

/-!
Weather forecast proxy (`main.go`)

A shallow embedding of the single Go source file of the service: the static
temperature table and its linear lookup, the two upstream fetch helpers and
the HTTP handler, followed by the properties proved about them.

Conventions of the embedding

* A Go `error` is represented by its message (`String`); a Go function
  returning `(T, error)` returns `Except String T`.
* A Go `map` is represented by the list of its entries.  A `for ... range`
  over the map visits every entry exactly once in an order the language does
  not fix, so the loop takes the visiting order as an argument: any list that
  is a permutation of the entries.
* The standard library and the upstream weather API are the environment of the
  program.  They are collected in the structure `Env`; the program is
  a function of it and every theorem holds for all environments.
* Outbound fetches are observed through the trace of URLs handed to
  `http.Get`, in call order.
-/

namespace Forecast

/-! ## Temperature classifier -/

/-- TemperatureRange defines a structure for mapping temperature ranges. -/
structure TemperatureRange where
  Min : Int
  Max : Int
  deriving DecidableEq, Repr

/-- The entries of the map `temperatureDescriptions`, in the order in which the
source lists them. -/
def temperatureDescriptions : List (TemperatureRange × String) :=
  [ ({ Min := 12, Max := 32 }, "very cold"),
    ({ Min := 32, Max := 50 }, "cold"),
    ({ Min := 40, Max := 60 }, "moderate"),
    ({ Min := 60, Max := 80 }, "warm"),
    ({ Min := 80, Max := 95 }, "hot"),
    ({ Min := 95, Max := 120 }, "very hot") ]

/-- The loop condition `temp >= rangeKey.Min && temp <= rangeKey.Max`. -/
def inRange (temp : Int) (rangeKey : TemperatureRange) : Bool :=
  decide (temp ≥ rangeKey.Min) && decide (temp ≤ rangeKey.Max)

/-- GetTemperatureDescription: the `for ... range` loop over the map, run over
the entries in the visiting order `order`; the first entry whose range holds
`temp` returns its description, and falling out of the loop returns the
fallback string. -/
def GetTemperatureDescription (order : List (TemperatureRange × String)) (temp : Int) :
    String :=
  match order with
  | [] => "unknown temperature range"
  | (rangeKey, description) :: rest =>
    if inRange temp rangeKey then description
    else GetTemperatureDescription rest temp

/-- A visiting order of the map: each of the six entries exactly once. -/
def IsIterationOrder (order : List (TemperatureRange × String)) : Prop :=
  order.Perm temperatureDescriptions

/-- The entries of the map whose range holds `temp`. -/
def matching (temp : Int) : List (TemperatureRange × String) :=
  temperatureDescriptions.filter (fun e => inRange temp e.1)

/-! ## Data decoded from the upstream API -/

/-- The `properties` object of the metadata response. -/
structure MetadataProperties where
  Forecast : String
  deriving DecidableEq, Repr

/-- MetadataResponse holds the structure of the initial API response. -/
structure MetadataResponse where
  Properties : MetadataProperties
  deriving DecidableEq, Repr

/-- ForecastPeriod represents a single period in the weather forecast. -/
structure ForecastPeriod where
  Name : String
  Temperature : Int
  ShortForecast : String
  deriving DecidableEq, Repr

/-- The `properties` object of the forecast response. -/
structure ForecastProperties where
  Periods : List ForecastPeriod
  deriving DecidableEq, Repr

/-- ForecastResponse holds the structure of the forecast API response. -/
structure ForecastResponse where
  Properties : ForecastProperties
  deriving DecidableEq, Repr

/-! ## Environment: standard library and upstream API -/

/-- A Go `float64`, given by its IEEE-754 bit pattern (`math.Float64bits`). -/
structure Float64 where
  bits : Nat
  deriving DecidableEq, Repr

/-- The biased exponent field (bits 52..62) of a `float64`. -/
def Float64.exponent (f : Float64) : Nat := (f.bits / 2 ^ 52) % 2 ^ 11

/-- Holds for the patterns of `NaN`, `+Inf` and `-Inf`
(`math.IsNaN(f) || math.IsInf(f, 0)`): the exponent field is all ones. -/
def Float64.isNaNOrInf (f : Float64) : Bool := f.exponent == 2047

/-- What `FetchURL` reads of the `*http.Response` returned by `http.Get`:
the status code, the status line and the outcome of `io.ReadAll(resp.Body)`. -/
structure Response where
  StatusCode : Int
  Status : String
  Body : Except String String

/-- The environment of the program.

* `ParseFloat s` is `strconv.ParseFloat(s, 64)`.
* `FormatFloat f` is the text the verb `%f` prints for `f`.
* `Get trace url` is `http.Get(url)`, answered by the upstream after the
  fetches `trace` were issued earlier in the same request.
* `UnmarshalMetadata body` and `UnmarshalForecast body` are `json.Unmarshal`
  into a fresh `MetadataResponse` and `ForecastResponse`.
* `RangeOrder` is the order in which the `range` loop of
  `GetTemperatureDescription` visits the map during this request. -/
structure Env where
  ParseFloat : String → Except String Float64
  FormatFloat : Float64 → String
  Get : List String → String → Except String Response
  UnmarshalMetadata : String → Except String MetadataResponse
  UnmarshalForecast : String → Except String ForecastResponse
  RangeOrder : List (TemperatureRange × String)

/-- The constant `http.StatusOK`. -/
def StatusOK : Int := 200

/-- The constant `http.StatusBadRequest`. -/
def StatusBadRequest : Int := 400

/-- The constant `http.StatusInternalServerError`. -/
def StatusInternalServerError : Int := 500

/-! ## Fetch pipeline -/

/-- FetchURL makes a GET request to the given URL and returns the response body.
The second component is the fetch trace extended by this call. -/
def FetchURL (env : Env) (trace : List String) (url : String) :
    Except String String × List String :=
  match env.Get trace url with
  | .error err => (.error err, trace ++ [url])
  | .ok resp =>
    if resp.StatusCode ≠ StatusOK then
      (.error ("failed to fetch data: " ++ resp.Status), trace ++ [url])
    else
      (resp.Body, trace ++ [url])

/-- GetForecastURL fetches the forecast endpoint from the metadata API. -/
def GetForecastURL (env : Env) (trace : List String) (metadataURL : String) :
    Except String String × List String :=
  match FetchURL env trace metadataURL with
  | (.error err, t) => (.error err, t)
  | (.ok body, t) =>
    match env.UnmarshalMetadata body with
    | .error err => (.error err, t)
    | .ok metadata => (.ok metadata.Properties.Forecast, t)

/-- GetTodaysWeatherForcast fetches the forecast data and extracts the first
period of the array. -/
def GetTodaysWeatherForcast (env : Env) (trace : List String) (forecastURL : String) :
    Except String ForecastPeriod × List String :=
  match FetchURL env trace forecastURL with
  | (.error err, t) => (.error err, t)
  | (.ok body, t) =>
    match env.UnmarshalForecast body with
    | .error err => (.error err, t)
    | .ok forecast =>
      if h : forecast.Properties.Periods.length > 0 then
        (.ok (forecast.Properties.Periods.get ⟨0, h⟩), t)
      else
        (.error "no forecast periods found", t)

/-! ## Request and reply -/

/-- The query of the request as `r.URL.Query()` returns it (`url.Values`):
each key with the list of its values. -/
structure Request where
  Query : List (String × List String)

/-- The method `url.Values.Get`: the first value of `key`, and the empty
string when the key has no value. -/
def Request.Get (r : Request) (key : String) : String :=
  match r.Query.lookup key with
  | none => ""
  | some vs =>
    match vs with
    | [] => ""
    | v :: _ => v

/-- A value stored in the handler's `map[string]interface{}`. -/
inductive Value where
  | float (f : Float64)
  | int (i : Int)
  | string (s : String)
  deriving DecidableEq, Repr

/-- What the handler wrote to the `http.ResponseWriter`. -/
inductive Body where
  | empty
  | text (s : String)
  | json (object : List (String × Value))
  deriving DecidableEq, Repr

/-- The reply the client receives: status code, `Content-Type` header, body. -/
structure Reply where
  status : Int
  contentType : String
  body : Body
  deriving DecidableEq, Repr

/-- The function `http.Error(w, error, code)`: a plain-text reply with the
given code whose body is the message followed by a newline. -/
def httpError (error : String) (code : Int) : Reply :=
  { status := code, contentType := "text/plain; charset=utf-8", body := .text (error ++ "\n") }

/-- The value cannot be encoded: `encoding/json` reports an
`UnsupportedValueError` for a `float64` that is `NaN` or infinite. -/
def Value.unsupported : Value → Bool
  | .float f => f.isNaNOrInf
  | .int _ => false
  | .string _ => false

/-- The tail of the handler:
`w.Header().Set("Content-Type", "application/json")` followed by
`json.NewEncoder(w).Encode(response)`, whose error the handler drops.  The
encoder writes the object (keys in sorted order, which is the order of the
handler's map literal) in one piece, or, when a value is unsupported, returns
an error without writing anything; the status is then still the implicit 200. -/
def encodeReply (response : List (String × Value)) : Reply :=
  if response.any (fun kv => kv.2.unsupported) then
    { status := StatusOK, contentType := "application/json", body := .empty }
  else
    { status := StatusOK, contentType := "application/json", body := .json response }

/-- The URL `fmt.Sprintf("https://api.weather.gov/points/%f,%f", lat, lon)`. -/
def metadataURL (env : Env) (lat lon : Float64) : String :=
  "https://api.weather.gov/points/" ++ env.FormatFloat lat ++ "," ++ env.FormatFloat lon

/-- The map literal `response` of the handler. -/
def responseMap (env : Env) (lat lon : Float64) (period : ForecastPeriod) :
    List (String × Value) :=
  [ ("latitude", .float lat),
    ("longitude", .float lon),
    ("shortForecast", .string period.ShortForecast),
    ("temperature", .int period.Temperature),
    ("temperatureDescription",
      .string (GetTemperatureDescription env.RangeOrder period.Temperature)) ]

/-- API handler for weather forecast.  Returns the reply and the trace of the
outbound fetches of the request. -/
def forecastHandler (env : Env) (r : Request) : Reply × List String :=
  let latStr := r.Get "lat"
  let lonStr := r.Get "lon"
  if latStr = "" ∨ lonStr = "" then
    (httpError "Missing latitude or longitude" StatusBadRequest, [])
  else
    match env.ParseFloat latStr with
    | .error _ => (httpError "Invalid latitude" StatusBadRequest, [])
    | .ok lat =>
      match env.ParseFloat lonStr with
      | .error _ => (httpError "Invalid longitude" StatusBadRequest, [])
      | .ok lon =>
        match GetForecastURL env [] (metadataURL env lat lon) with
        | (.error err, t) =>
          (httpError ("Error fetching forecast URL: " ++ err) StatusInternalServerError, t)
        | (.ok forecastURL, t) =>
          match GetTodaysWeatherForcast env t forecastURL with
          | (.error err, t2) =>
            (httpError ("Error fetching today\x27s temperature: " ++ err)
              StatusInternalServerError, t2)
          | (.ok period, t2) => (encodeReply (responseMap env lat lon period), t2)

/-! ## Sample environments

Concrete requests and environments at which the theorems below are
instantiated.  The library functions are given at the arguments the instances
use; at any other argument they answer with an error (or a placeholder), which
no instance reaches. -/

/-- The metadata URL for latitude 39.7456 and longitude -104.9974. -/
def pointsURL : String := "https://api.weather.gov/points/39.745600,-104.997400"

/-- The metadata URL the handler builds when the latitude is `NaN`. -/
def nanPointsURL : String := "https://api.weather.gov/points/NaN,-104.997400"

/-- A forecast URL as the metadata endpoint returns it. -/
def gridURL : String := "https://api.weather.gov/gridpoints/BOU/62,60/forecast"

/-- The bit pattern of the `float64` nearest to 39.7456. -/
def lat39 : Float64 := ⟨0x4043df6fd21ff2e5⟩

/-- The bit pattern of the `float64` nearest to -104.9974. -/
def lonMinus104 : Float64 := ⟨0xc05a3fd566cf41f2⟩

/-- The bit pattern of the `NaN` that `strconv.ParseFloat` returns (`math.NaN()`). -/
def goNaN : Float64 := ⟨0x7ff8000000000001⟩

/-- The values of `strconv.ParseFloat(s, 64)` at "39.7456", "-104.9974" and
"NaN" (which it accepts, like "Inf" and "Infinity"); a syntax error elsewhere,
as for "abc". -/
def sampleParseFloat (s : String) : Except String Float64 :=
  if s = "39.7456" then .ok lat39
  else if s = "-104.9974" then .ok lonMinus104
  else if s = "NaN" then .ok goNaN
  else .error ("strconv.ParseFloat: parsing " ++ s.quote ++ ": invalid syntax")

/-- The text `%f` prints for the three sample values. -/
def sampleFormatFloat (f : Float64) : String :=
  if f = lat39 then "39.745600"
  else if f = lonMinus104 then "-104.997400"
  else if f = goNaN then "NaN"
  else "?"

/-- An upstream that serves the metadata document at `pointsURL`, the forecast
document at `gridURL`, and answers 404 elsewhere. -/
def sampleGet (_trace : List String) (url : String) : Except String Response :=
  if url = pointsURL then .ok ⟨200, "200 OK", .ok "metadata document"⟩
  else if url = gridURL then .ok ⟨200, "200 OK", .ok "forecast document"⟩
  else .ok ⟨404, "404 Not Found", .ok ""⟩

/-- An upstream that answers every request with 503. -/
def unavailableGet (_trace : List String) (_url : String) : Except String Response :=
  .ok ⟨503, "503 Service Unavailable", .ok ""⟩

/-- An upstream whose forecast document has an empty `periods` array. -/
def emptyPeriodsGet (_trace : List String) (url : String) : Except String Response :=
  if url = pointsURL then .ok ⟨200, "200 OK", .ok "metadata document"⟩
  else .ok ⟨200, "200 OK", .ok "forecast document without periods"⟩

/-- An upstream that serves the forecast document at `gridURL` and the metadata
document at every other URL. -/
def lenientGet (_trace : List String) (url : String) : Except String Response :=
  if url = gridURL then .ok ⟨200, "200 OK", .ok "forecast document"⟩
  else .ok ⟨200, "200 OK", .ok "metadata document"⟩

/-- Decoding of the sample metadata document. -/
def sampleUnmarshalMetadata (body : String) : Except String MetadataResponse :=
  if body = "metadata document" then .ok ⟨⟨gridURL⟩⟩
  else .error "unexpected end of JSON input"

/-- Decoding of the sample forecast documents. -/
def sampleUnmarshalForecast (body : String) : Except String ForecastResponse :=
  if body = "forecast document" then
    .ok ⟨⟨[⟨"Today", 45, "Sunny"⟩, ⟨"Tonight", 28, "Mostly Clear"⟩]⟩⟩
  else if body = "forecast document without periods" then .ok ⟨⟨[]⟩⟩
  else .error "unexpected end of JSON input"

/-- The sample environment: healthy upstream, map visited in source order. -/
def sampleEnv : Env :=
  { ParseFloat := sampleParseFloat
    FormatFloat := sampleFormatFloat
    Get := sampleGet
    UnmarshalMetadata := sampleUnmarshalMetadata
    UnmarshalForecast := sampleUnmarshalForecast
    RangeOrder := temperatureDescriptions }

/-- The sample environment with the upstream answering 503. -/
def unavailableEnv : Env := { sampleEnv with Get := unavailableGet }

/-- The sample environment with a forecast document without periods. -/
def emptyPeriodsEnv : Env := { sampleEnv with Get := emptyPeriodsGet }

/-- The sample environment with the lenient upstream. -/
def lenientEnv : Env := { sampleEnv with Get := lenientGet }

/-- The request `/forecast?lat=39.7456&lon=-104.9974`. -/
def sampleRequest : Request := ⟨[("lat", ["39.7456"]), ("lon", ["-104.9974"])]⟩

/-- The request `/forecast?lat=39.7456`. -/
def missingLonRequest : Request := ⟨[("lat", ["39.7456"])]⟩

/-- The request `/forecast?lat=abc&lon=-104.9974`. -/
def badLatRequest : Request := ⟨[("lat", ["abc"]), ("lon", ["-104.9974"])]⟩

/-- The request `/forecast?lat=NaN&lon=-104.9974`. -/
def nanRequest : Request := ⟨[("lat", ["NaN"]), ("lon", ["-104.9974"])]⟩

/-! ## Lemmas on the lookup loop -/

theorem lookup_first_or_none (order : List (TemperatureRange × String)) (temp : Int) :
    (∃ pre r d post, order = pre ++ (r, d) :: post ∧
        (∀ e ∈ pre, inRange temp e.1 = false) ∧ inRange temp r = true ∧
        GetTemperatureDescription order temp = d) ∨
    ((∀ e ∈ order, inRange temp e.1 = false) ∧
        GetTemperatureDescription order temp = "unknown temperature range") := by
  induction order with
  | nil => right; simp [GetTemperatureDescription]
  | cons hd tl ih =>
    obtain ⟨r, d⟩ := hd
    by_cases h : inRange temp r = true
    · left
      exact ⟨[], r, d, tl, rfl, by simp, h, by simp [GetTemperatureDescription, h]⟩
    · have hf : inRange temp r = false := by simpa using h
      rcases ih with ⟨pre, r2, d2, post, heq, hpre, hr, hres⟩ | ⟨hall, hres⟩
      · left
        refine ⟨(r, d) :: pre, r2, d2, post, by simp [heq], ?_, hr, ?_⟩
        · intro e he
          rcases List.mem_cons.1 he with rfl | he
          · exact hf
          · exact hpre e he
        · simp [GetTemperatureDescription, hf, hres]
      · right
        refine ⟨?_, by simp [GetTemperatureDescription, hf, hres]⟩
        intro e he
        rcases List.mem_cons.1 he with rfl | he
        · exact hf
        · exact hall e he

theorem inRange_iff (temp : Int) (r : TemperatureRange) :
    inRange temp r = true ↔ r.Min ≤ temp ∧ temp ≤ r.Max := by
  simp [inRange]

theorem inRange_false_iff (temp : Int) (r : TemperatureRange) :
    inRange temp r = false ↔ ¬ (r.Min ≤ temp ∧ temp ≤ r.Max) := by
  rw [← inRange_iff]; simp

theorem mem_iterationOrder {order : List (TemperatureRange × String)}
    (h : IsIterationOrder order) (e : TemperatureRange × String) :
    e ∈ order ↔ e ∈ temperatureDescriptions :=
  List.Perm.mem_iff h

/-- Under any visiting order the result is the label of one of the six ranges,
with `temp` inside that range, or the fallback with `temp` outside 12..120. -/
theorem result_enum {order : List (TemperatureRange × String)} (h : IsIterationOrder order)
    (temp : Int) :
    (12 ≤ temp ∧ temp ≤ 32 ∧ GetTemperatureDescription order temp = "very cold") ∨
    (32 ≤ temp ∧ temp ≤ 50 ∧ GetTemperatureDescription order temp = "cold") ∨
    (40 ≤ temp ∧ temp ≤ 60 ∧ GetTemperatureDescription order temp = "moderate") ∨
    (60 ≤ temp ∧ temp ≤ 80 ∧ GetTemperatureDescription order temp = "warm") ∨
    (80 ≤ temp ∧ temp ≤ 95 ∧ GetTemperatureDescription order temp = "hot") ∨
    (95 ≤ temp ∧ temp ≤ 120 ∧ GetTemperatureDescription order temp = "very hot") ∨
    ((temp < 12 ∨ 120 < temp) ∧
      GetTemperatureDescription order temp = "unknown temperature range") := by
  rcases lookup_first_or_none order temp with ⟨pre, r, d, post, heq, -, hr, hres⟩ | ⟨hall, hres⟩
  · have hmem : (r, d) ∈ temperatureDescriptions := by
      rw [← mem_iterationOrder h, heq]; simp
    rw [inRange_iff] at hr
    simp only [temperatureDescriptions, List.mem_cons, Prod.mk.injEq, List.mem_singleton,
      List.not_mem_nil, or_false] at hmem
    rcases hmem with ⟨rfl, rfl⟩ | ⟨rfl, rfl⟩ | ⟨rfl, rfl⟩ | ⟨rfl, rfl⟩ | ⟨rfl, rfl⟩ | ⟨rfl, rfl⟩
    · exact Or.inl ⟨hr.1, hr.2, hres⟩
    · exact Or.inr (Or.inl ⟨hr.1, hr.2, hres⟩)
    · exact Or.inr (Or.inr (Or.inl ⟨hr.1, hr.2, hres⟩))
    · exact Or.inr (Or.inr (Or.inr (Or.inl ⟨hr.1, hr.2, hres⟩)))
    · exact Or.inr (Or.inr (Or.inr (Or.inr (Or.inl ⟨hr.1, hr.2, hres⟩))))
    · exact Or.inr (Or.inr (Or.inr (Or.inr (Or.inr (Or.inl ⟨hr.1, hr.2, hres⟩)))))
  · have hall2 : ∀ e ∈ temperatureDescriptions, ¬ (e.1.Min ≤ temp ∧ temp ≤ e.1.Max) := by
      intro e he
      rw [← inRange_false_iff]
      exact hall e ((mem_iterationOrder h e).2 he)
    have h1 := hall2 ({ Min := 12, Max := 32 }, "very cold") (by simp [temperatureDescriptions])
    have h2 := hall2 ({ Min := 32, Max := 50 }, "cold") (by simp [temperatureDescriptions])
    have h3 := hall2 ({ Min := 40, Max := 60 }, "moderate") (by simp [temperatureDescriptions])
    have h4 := hall2 ({ Min := 60, Max := 80 }, "warm") (by simp [temperatureDescriptions])
    have h5 := hall2 ({ Min := 80, Max := 95 }, "hot") (by simp [temperatureDescriptions])
    have h6 := hall2 ({ Min := 95, Max := 120 }, "very hot") (by simp [temperatureDescriptions])
    simp only at h1 h2 h3 h4 h5 h6
    refine Or.inr (Or.inr (Or.inr (Or.inr (Or.inr (Or.inr ⟨?_, hres⟩)))))
    omega

theorem isIterationOrder_source : IsIterationOrder temperatureDescriptions :=
  List.Perm.refl _

theorem isIterationOrder_reverse : IsIterationOrder temperatureDescriptions.reverse :=
  List.reverse_perm _

/-- The result under the source order of the entries, by region of `temp`. -/
theorem source_order_eval (temp : Int) :
    GetTemperatureDescription temperatureDescriptions temp =
      if 12 ≤ temp ∧ temp ≤ 32 then "very cold"
      else if 32 ≤ temp ∧ temp ≤ 50 then "cold"
      else if 40 ≤ temp ∧ temp ≤ 60 then "moderate"
      else if 60 ≤ temp ∧ temp ≤ 80 then "warm"
      else if 80 ≤ temp ∧ temp ≤ 95 then "hot"
      else if 95 ≤ temp ∧ temp ≤ 120 then "very hot"
      else "unknown temperature range" := by
  simp [temperatureDescriptions, GetTemperatureDescription, inRange]

/-- The result under the reversed source order, by region of `temp`. -/
theorem reverse_order_eval (temp : Int) :
    GetTemperatureDescription temperatureDescriptions.reverse temp =
      if 95 ≤ temp ∧ temp ≤ 120 then "very hot"
      else if 80 ≤ temp ∧ temp ≤ 95 then "hot"
      else if 60 ≤ temp ∧ temp ≤ 80 then "warm"
      else if 40 ≤ temp ∧ temp ≤ 60 then "moderate"
      else if 32 ≤ temp ∧ temp ≤ 50 then "cold"
      else if 12 ≤ temp ∧ temp ≤ 32 then "very cold"
      else "unknown temperature range" := by
  simp [temperatureDescriptions, GetTemperatureDescription, inRange]

/-! ## Temperature classifier: the claims -/

/-- C1: for every integer `temp` and every visiting order of the six entries of
`temperatureDescriptions`, if some range of the table contains `temp`
(`Min ≤ temp ≤ Max`, bounds included) the result is the label of the first
entry in that order whose range contains `temp`, and if no range of the table
contains `temp` the result is "unknown temperature range". -/
theorem GetTemperatureDescription_first_match
    (order : List (TemperatureRange × String)) (temp : Int) (h : IsIterationOrder order) :
    ((∃ e ∈ temperatureDescriptions, e.1.Min ≤ temp ∧ temp ≤ e.1.Max) →
      ∃ pre r d post, order = pre ++ (r, d) :: post ∧
        (∀ e ∈ pre, ¬ (e.1.Min ≤ temp ∧ temp ≤ e.1.Max)) ∧
        (r.Min ≤ temp ∧ temp ≤ r.Max) ∧
        GetTemperatureDescription order temp = d) ∧
    ((∀ e ∈ temperatureDescriptions, ¬ (e.1.Min ≤ temp ∧ temp ≤ e.1.Max)) →
      GetTemperatureDescription order temp = "unknown temperature range") := by
  constructor
  · rintro ⟨e, he, hin⟩
    rcases lookup_first_or_none order temp with ⟨pre, r, d, post, heq, hpre, hr, hres⟩ | ⟨hall, -⟩
    · refine ⟨pre, r, d, post, heq, ?_, (inRange_iff temp r).1 hr, hres⟩
      intro x hx
      exact (inRange_false_iff temp x.1).1 (hpre x hx)
    · exact absurd hin ((inRange_false_iff temp e.1).1 (hall e ((mem_iterationOrder h e).2 he)))
  · intro hnone
    rcases lookup_first_or_none order temp with ⟨pre, r, d, post, heq, -, hr, -⟩ | ⟨-, hres⟩
    · have hmem : (r, d) ∈ temperatureDescriptions := by
        rw [← mem_iterationOrder h, heq]; simp
      exact absurd ((inRange_iff temp r).1 hr) (hnone (r, d) hmem)
    · exact hres

/-- Instance of C1 at the reversed source order and temperature 45: the first
matching entry is the one labelled "moderate". -/
theorem GetTemperatureDescription_first_match_witness :
    IsIterationOrder temperatureDescriptions.reverse ∧
    (((∃ e ∈ temperatureDescriptions, e.1.Min ≤ (45 : Int) ∧ (45 : Int) ≤ e.1.Max) →
      ∃ pre r d post, temperatureDescriptions.reverse = pre ++ (r, d) :: post ∧
        (∀ e ∈ pre, ¬ (e.1.Min ≤ (45 : Int) ∧ (45 : Int) ≤ e.1.Max)) ∧
        (r.Min ≤ (45 : Int) ∧ (45 : Int) ≤ r.Max) ∧
        GetTemperatureDescription temperatureDescriptions.reverse 45 = d) ∧
    ((∀ e ∈ temperatureDescriptions, ¬ (e.1.Min ≤ (45 : Int) ∧ (45 : Int) ≤ e.1.Max)) →
      GetTemperatureDescription temperatureDescriptions.reverse 45
        = "unknown temperature range")) :=
  ⟨isIterationOrder_reverse,
    GetTemperatureDescription_first_match temperatureDescriptions.reverse 45
      isIterationOrder_reverse⟩

/-- C8: every `temp` with `40 ≤ temp ≤ 50` (45 among them) lies in the ranges
[32,50] and [40,60] and in no other range of the table; under every visiting
order the result is "cold" or "moderate", and each of the two labels is the
result under some visiting order. -/
theorem GetTemperatureDescription_ambiguous (temp : Int) (h40 : 40 ≤ temp) (h50 : temp ≤ 50) :
    (∀ e ∈ temperatureDescriptions, (e.1.Min ≤ temp ∧ temp ≤ e.1.Max) ↔
      (e = ({ Min := 32, Max := 50 }, "cold") ∨ e = ({ Min := 40, Max := 60 }, "moderate"))) ∧
    (∀ order, IsIterationOrder order →
      GetTemperatureDescription order temp = "cold" ∨
      GetTemperatureDescription order temp = "moderate") ∧
    (∃ order, IsIterationOrder order ∧ GetTemperatureDescription order temp = "cold") ∧
    (∃ order, IsIterationOrder order ∧ GetTemperatureDescription order temp = "moderate") := by
  refine ⟨?_, ?_, ?_, ?_⟩
  · intro e he
    simp only [temperatureDescriptions, List.mem_cons, List.mem_singleton,
      List.not_mem_nil, or_false] at he
    rcases he with rfl | rfl | rfl | rfl | rfl | rfl <;> simp <;> omega
  · intro order horder
    rcases result_enum horder temp with
      ⟨_, _, _⟩ | ⟨_, _, e⟩ | ⟨_, _, e⟩ | ⟨_, _, _⟩ | ⟨_, _, _⟩ | ⟨_, _, _⟩ | ⟨_, _⟩
    · omega
    · exact Or.inl e
    · exact Or.inr e
    · omega
    · omega
    · omega
    · omega
  · refine ⟨temperatureDescriptions, isIterationOrder_source, ?_⟩
    rw [source_order_eval]
    rw [if_neg (by omega), if_pos (by omega)]
  · refine ⟨temperatureDescriptions.reverse, isIterationOrder_reverse, ?_⟩
    rw [reverse_order_eval]
    rw [if_neg (by omega), if_neg (by omega), if_neg (by omega), if_pos (by omega)]

/-- Instance of C8 at temperature 45. -/
theorem GetTemperatureDescription_ambiguous_witness :
    (40 : Int) ≤ 45 ∧ (45 : Int) ≤ 50 ∧
    ((∀ e ∈ temperatureDescriptions, (e.1.Min ≤ (45 : Int) ∧ (45 : Int) ≤ e.1.Max) ↔
      (e = ({ Min := 32, Max := 50 }, "cold") ∨ e = ({ Min := 40, Max := 60 }, "moderate"))) ∧
    (∀ order, IsIterationOrder order →
      GetTemperatureDescription order 45 = "cold" ∨
      GetTemperatureDescription order 45 = "moderate") ∧
    (∃ order, IsIterationOrder order ∧ GetTemperatureDescription order 45 = "cold") ∧
    (∃ order, IsIterationOrder order ∧ GetTemperatureDescription order 45 = "moderate")) :=
  ⟨by decide, by decide, GetTemperatureDescription_ambiguous 45 (by decide) (by decide)⟩

/-- C9: under every visiting order temperature 10 gives
"unknown temperature range"; for every integer `temp` the result is
"unknown temperature range" exactly when `temp < 12` or `temp > 120`; and
every `temp` in 12..120 lies in some range of the table. -/
theorem GetTemperatureDescription_unknown_iff
    (order : List (TemperatureRange × String)) (temp : Int) (h : IsIterationOrder order) :
    GetTemperatureDescription order 10 = "unknown temperature range" ∧
    (GetTemperatureDescription order temp = "unknown temperature range" ↔
      (temp < 12 ∨ temp > 120)) ∧
    (12 ≤ temp ∧ temp ≤ 120 →
      ∃ e ∈ temperatureDescriptions, e.1.Min ≤ temp ∧ temp ≤ e.1.Max) := by
  have key : ∀ t : Int, GetTemperatureDescription order t = "unknown temperature range" ↔
      (t < 12 ∨ t > 120) := by
    intro t
    rcases result_enum h t with
      ⟨_, _, e⟩ | ⟨_, _, e⟩ | ⟨_, _, e⟩ | ⟨_, _, e⟩ | ⟨_, _, e⟩ | ⟨_, _, e⟩ | ⟨hr, e⟩
    all_goals rw [e]
    · exact ⟨fun hc => absurd hc (by decide), fun hc => by omega⟩
    · exact ⟨fun hc => absurd hc (by decide), fun hc => by omega⟩
    · exact ⟨fun hc => absurd hc (by decide), fun hc => by omega⟩
    · exact ⟨fun hc => absurd hc (by decide), fun hc => by omega⟩
    · exact ⟨fun hc => absurd hc (by decide), fun hc => by omega⟩
    · exact ⟨fun hc => absurd hc (by decide), fun hc => by omega⟩
    · exact ⟨fun _ => by omega, fun _ => rfl⟩
  refine ⟨(key 10).2 (by omega), key temp, ?_⟩
  rintro ⟨h12, h120⟩
  by_cases c1 : temp ≤ 32
  · exact ⟨({ Min := 12, Max := 32 }, "very cold"), by simp [temperatureDescriptions], h12, c1⟩
  by_cases c2 : temp ≤ 50
  · exact ⟨({ Min := 32, Max := 50 }, "cold"), by simp [temperatureDescriptions],
      by simp only; omega, c2⟩
  by_cases c3 : temp ≤ 60
  · exact ⟨({ Min := 40, Max := 60 }, "moderate"), by simp [temperatureDescriptions],
      by simp only; omega, c3⟩
  by_cases c4 : temp ≤ 80
  · exact ⟨({ Min := 60, Max := 80 }, "warm"), by simp [temperatureDescriptions],
      by simp only; omega, c4⟩
  by_cases c5 : temp ≤ 95
  · exact ⟨({ Min := 80, Max := 95 }, "hot"), by simp [temperatureDescriptions],
      by simp only; omega, c5⟩
  · exact ⟨({ Min := 95, Max := 120 }, "very hot"), by simp [temperatureDescriptions],
      by simp only; omega, h120⟩

/-- Instance of C9 at the source order and temperature 121. -/
theorem GetTemperatureDescription_unknown_iff_witness :
    IsIterationOrder temperatureDescriptions ∧
    (GetTemperatureDescription temperatureDescriptions 10 = "unknown temperature range" ∧
    (GetTemperatureDescription temperatureDescriptions 121 = "unknown temperature range" ↔
      ((121 : Int) < 12 ∨ (121 : Int) > 120)) ∧
    ((12 : Int) ≤ 121 ∧ (121 : Int) ≤ 120 →
      ∃ e ∈ temperatureDescriptions, e.1.Min ≤ (121 : Int) ∧ (121 : Int) ≤ e.1.Max)) :=
  ⟨isIterationOrder_source,
    GetTemperatureDescription_unknown_iff temperatureDescriptions 121 isIterationOrder_source⟩

theorem matching_eval (temp : Int) :
    matching temp =
      (if 12 ≤ temp ∧ temp ≤ 32 then [(({ Min := 12, Max := 32 } : TemperatureRange), "very cold")]
        else []) ++
      ((if 32 ≤ temp ∧ temp ≤ 50 then [(({ Min := 32, Max := 50 } : TemperatureRange), "cold")]
        else []) ++
      ((if 40 ≤ temp ∧ temp ≤ 60 then [(({ Min := 40, Max := 60 } : TemperatureRange), "moderate")]
        else []) ++
      ((if 60 ≤ temp ∧ temp ≤ 80 then [(({ Min := 60, Max := 80 } : TemperatureRange), "warm")]
        else []) ++
      ((if 80 ≤ temp ∧ temp ≤ 95 then [(({ Min := 80, Max := 95 } : TemperatureRange), "hot")]
        else []) ++
      (if 95 ≤ temp ∧ temp ≤ 120 then
        [(({ Min := 95, Max := 120 } : TemperatureRange), "very hot")] else []))))) := by
  simp only [matching, temperatureDescriptions, List.filter_cons, List.filter_nil, inRange,
    ge_iff_le, Bool.and_eq_true, decide_eq_true_eq]
  split_ifs <;> simp

/-- C10: for every integer `temp` outside `{32} ∪ [40,50] ∪ {60, 80, 95}` at
most one range of the table contains `temp` and the result is the same under
every two visiting orders; for every `temp` inside that set exactly two ranges
contain `temp` and two visiting orders give two different labels. -/
theorem GetTemperatureDescription_deterministic_iff (temp : Int) :
    (¬ (temp = 32 ∨ (40 ≤ temp ∧ temp ≤ 50) ∨ temp = 60 ∨ temp = 80 ∨ temp = 95) →
      (matching temp).length ≤ 1 ∧
      ∀ o1 o2, IsIterationOrder o1 → IsIterationOrder o2 →
        GetTemperatureDescription o1 temp = GetTemperatureDescription o2 temp) ∧
    ((temp = 32 ∨ (40 ≤ temp ∧ temp ≤ 50) ∨ temp = 60 ∨ temp = 80 ∨ temp = 95) →
      (matching temp).length = 2 ∧
      ∃ o1 o2, IsIterationOrder o1 ∧ IsIterationOrder o2 ∧
        GetTemperatureDescription o1 temp ≠ GetTemperatureDescription o2 temp) := by
  constructor
  · intro hoff
    constructor
    · rw [matching_eval]
      split_ifs <;> simp <;> omega
    · intro o1 o2 h1 h2
      rcases result_enum h1 temp with
        ⟨_, _, e1⟩ | ⟨_, _, e1⟩ | ⟨_, _, e1⟩ | ⟨_, _, e1⟩ | ⟨_, _, e1⟩ | ⟨_, _, e1⟩ | ⟨_, e1⟩ <;>
      rcases result_enum h2 temp with
        ⟨_, _, e2⟩ | ⟨_, _, e2⟩ | ⟨_, _, e2⟩ | ⟨_, _, e2⟩ | ⟨_, _, e2⟩ | ⟨_, _, e2⟩ | ⟨_, e2⟩ <;>
      first
        | (exfalso; omega)
        | (rw [e1, e2])
  · intro hon
    constructor
    · rw [matching_eval]
      split_ifs <;> simp <;> omega
    · refine ⟨temperatureDescriptions, temperatureDescriptions.reverse,
        isIterationOrder_source, isIterationOrder_reverse, ?_⟩
      rw [source_order_eval, reverse_order_eval]
      split_ifs <;> first | (exfalso; omega) | decide

/-! ## Lemmas on the fetch pipeline and the handler -/

theorem FetchURL_trace (env : Env) (trace : List String) (url : String) :
    (FetchURL env trace url).2 = trace ++ [url] := by
  unfold FetchURL
  split
  · rfl
  · split <;> rfl

theorem FetchURL_of_status (env : Env) (trace : List String) (url : String) (resp : Response)
    (hget : env.Get trace url = .ok resp) (hstatus : resp.StatusCode ≠ 200) :
    FetchURL env trace url =
      (.error ("failed to fetch data: " ++ resp.Status), trace ++ [url]) := by
  simp [FetchURL, hget, StatusOK, hstatus]

theorem FetchURL_of_ok (env : Env) (trace : List String) (url : String) (resp : Response)
    (hget : env.Get trace url = .ok resp) (hstatus : resp.StatusCode = 200) :
    FetchURL env trace url = (resp.Body, trace ++ [url]) := by
  simp [FetchURL, hget, StatusOK, hstatus]

theorem GetForecastURL_trace (env : Env) (trace : List String) (url : String) :
    (GetForecastURL env trace url).2 = trace ++ [url] := by
  have h := FetchURL_trace env trace url
  unfold GetForecastURL
  split
  · next err t heq => rw [heq] at h; exact h
  · next body t heq =>
    rw [heq] at h
    split <;> exact h

theorem GetTodaysWeatherForcast_trace (env : Env) (trace : List String) (url : String) :
    (GetTodaysWeatherForcast env trace url).2 = trace ++ [url] := by
  have h := FetchURL_trace env trace url
  unfold GetTodaysWeatherForcast
  split
  · next err t heq => rw [heq] at h; exact h
  · next body t heq =>
    rw [heq] at h
    split
    · exact h
    · split <;> exact h

/-- The handler past the validation of the two parameters. -/
theorem forecastHandler_of_valid (env : Env) (r : Request) (lat lon : Float64)
    (hlat : r.Get "lat" ≠ "") (hlon : r.Get "lon" ≠ "")
    (hplat : env.ParseFloat (r.Get "lat") = .ok lat)
    (hplon : env.ParseFloat (r.Get "lon") = .ok lon) :
    forecastHandler env r =
      match GetForecastURL env [] (metadataURL env lat lon) with
      | (.error err, t) =>
        (httpError ("Error fetching forecast URL: " ++ err) StatusInternalServerError, t)
      | (.ok forecastURL, t) =>
        match GetTodaysWeatherForcast env t forecastURL with
        | (.error err, t2) =>
          (httpError ("Error fetching today\x27s temperature: " ++ err)
            StatusInternalServerError, t2)
        | (.ok period, t2) => (encodeReply (responseMap env lat lon period), t2) := by
  simp [forecastHandler, hlat, hlon, hplat, hplon]

theorem Request.Get_of_absent (r : Request) (key : String) (h : r.Query.lookup key = none) :
    r.Get key = "" := by
  simp [Request.Get, h]

/-! ## Request handler: the claims -/

/-- C2: for every request in which the `lat` or the `lon` query parameter is
absent or empty, whatever the other one is, the handler replies through
`http.Error` with the message "Missing latitude or longitude" and status 400,
and issues no outbound fetch. -/
theorem forecastHandler_missing_parameter (env : Env) (r : Request)
    (h : (r.Query.lookup "lat" = none ∨ r.Get "lat" = "") ∨
         (r.Query.lookup "lon" = none ∨ r.Get "lon" = "")) :
    forecastHandler env r = (httpError "Missing latitude or longitude" 400, []) ∧
    (forecastHandler env r).1.status = 400 := by
  have h2 : r.Get "lat" = "" ∨ r.Get "lon" = "" := by
    rcases h with (h | h) | (h | h)
    · exact Or.inl (Request.Get_of_absent r "lat" h)
    · exact Or.inl h
    · exact Or.inr (Request.Get_of_absent r "lon" h)
    · exact Or.inr h
  have key : forecastHandler env r = (httpError "Missing latitude or longitude" 400, []) := by
    simp [forecastHandler, h2, StatusBadRequest]
  exact ⟨key, by rw [key]; rfl⟩

/-- Instance of C2: the request `/forecast?lat=39.7456` has no `lon`. -/
theorem forecastHandler_missing_parameter_witness :
    ((missingLonRequest.Query.lookup "lat" = none ∨ missingLonRequest.Get "lat" = "") ∨
     (missingLonRequest.Query.lookup "lon" = none ∨ missingLonRequest.Get "lon" = "")) ∧
    (forecastHandler sampleEnv missingLonRequest
        = (httpError "Missing latitude or longitude" 400, []) ∧
      (forecastHandler sampleEnv missingLonRequest).1.status = 400) :=
  ⟨by decide, forecastHandler_missing_parameter sampleEnv missingLonRequest (by decide)⟩

/-- C3: for every request in which `lat` and `lon` are both present and
`strconv.ParseFloat` rejects at least one of them, the handler replies through
`http.Error` with status 400 and issues no outbound fetch; the message is
"Invalid latitude" when `lat` is rejected and "Invalid longitude" when `lat`
parses and `lon` is rejected. -/
theorem forecastHandler_invalid_parameter (env : Env) (r : Request)
    (hlat : r.Get "lat" ≠ "") (hlon : r.Get "lon" ≠ "")
    (hbad : (∃ err, env.ParseFloat (r.Get "lat") = .error err) ∨
            (∃ err, env.ParseFloat (r.Get "lon") = .error err)) :
    forecastHandler env r =
      (httpError
        (match env.ParseFloat (r.Get "lat") with
          | .error _ => "Invalid latitude"
          | .ok _ => "Invalid longitude") 400, []) ∧
    (forecastHandler env r).1.status = 400 := by
  have key : forecastHandler env r =
      (httpError
        (match env.ParseFloat (r.Get "lat") with
          | .error _ => "Invalid latitude"
          | .ok _ => "Invalid longitude") 400, []) := by
    cases hp : env.ParseFloat (r.Get "lat") with
    | error e => simp [forecastHandler, hlat, hlon, hp, StatusBadRequest]
    | ok lat =>
      rcases hbad with ⟨e, he⟩ | ⟨e, he⟩
      · rw [hp] at he; cases he
      · simp [forecastHandler, hlat, hlon, hp, he, StatusBadRequest]
  exact ⟨key, by rw [key]; rfl⟩

/-- Instance of C3: the request `/forecast?lat=abc&lon=-104.9974`. -/
theorem forecastHandler_invalid_parameter_witness :
    badLatRequest.Get "lat" ≠ "" ∧ badLatRequest.Get "lon" ≠ "" ∧
    ((∃ err, sampleEnv.ParseFloat (badLatRequest.Get "lat") = .error err) ∨
     (∃ err, sampleEnv.ParseFloat (badLatRequest.Get "lon") = .error err)) ∧
    (forecastHandler sampleEnv badLatRequest =
      (httpError
        (match sampleEnv.ParseFloat (badLatRequest.Get "lat") with
          | .error _ => "Invalid latitude"
          | .ok _ => "Invalid longitude") 400, []) ∧
    (forecastHandler sampleEnv badLatRequest).1.status = 400) :=
  ⟨by decide, by decide, Or.inl ⟨_, rfl⟩,
    forecastHandler_invalid_parameter sampleEnv badLatRequest (by decide) (by decide)
      (Or.inl ⟨_, rfl⟩)⟩

/-- C4: for every request with valid `lat` and `lon`, if the upstream answers
the metadata fetch with a status other than 200, the handler replies through
`http.Error` with status 500 and a message that starts with
"Error fetching forecast URL", and the only outbound fetch is the metadata
fetch: the forecast fetch is not performed. -/
theorem forecastHandler_metadata_status (env : Env) (r : Request) (lat lon : Float64)
    (resp : Response)
    (hlat : r.Get "lat" ≠ "") (hlon : r.Get "lon" ≠ "")
    (hplat : env.ParseFloat (r.Get "lat") = .ok lat)
    (hplon : env.ParseFloat (r.Get "lon") = .ok lon)
    (hget : env.Get [] (metadataURL env lat lon) = .ok resp)
    (hstatus : resp.StatusCode ≠ 200) :
    forecastHandler env r =
      (httpError ("Error fetching forecast URL: failed to fetch data: " ++ resp.Status) 500,
        [metadataURL env lat lon]) ∧
    (forecastHandler env r).1.status = 500 ∧
    (∃ rest, (forecastHandler env r).1.body = .text ("Error fetching forecast URL" ++ rest)) := by
  have key : forecastHandler env r =
      (httpError ("Error fetching forecast URL: failed to fetch data: " ++ resp.Status) 500,
        [metadataURL env lat lon]) := by
    rw [forecastHandler_of_valid env r lat lon hlat hlon hplat hplon]
    have hsplit0 : "Error fetching forecast URL: failed to fetch data: "
        = "Error fetching forecast URL: " ++ "failed to fetch data: " := by decide
    rw [hsplit0, String.append_assoc]
    simp [GetForecastURL, FetchURL_of_status env [] _ resp hget hstatus,
      StatusInternalServerError]
  refine ⟨key, by rw [key]; rfl, ?_⟩
  refine ⟨": failed to fetch data: " ++ resp.Status ++ "\n", ?_⟩
  rw [key]
  simp only [httpError, Body.text.injEq]
  have hsplit : "Error fetching forecast URL: failed to fetch data: "
      = "Error fetching forecast URL" ++ ": failed to fetch data: " := by decide
  rw [hsplit]
  simp only [String.append_assoc]

/-- Instance of C4: the upstream answers 503 Service Unavailable. -/
theorem forecastHandler_metadata_status_witness :
    sampleRequest.Get "lat" ≠ "" ∧ sampleRequest.Get "lon" ≠ "" ∧
    unavailableEnv.ParseFloat (sampleRequest.Get "lat") = .ok lat39 ∧
    unavailableEnv.ParseFloat (sampleRequest.Get "lon") = .ok lonMinus104 ∧
    (∃ resp, unavailableEnv.Get [] (metadataURL unavailableEnv lat39 lonMinus104) = .ok resp ∧
      resp.StatusCode = 503 ∧
      forecastHandler unavailableEnv sampleRequest =
        (httpError ("Error fetching forecast URL: failed to fetch data: " ++ resp.Status) 500,
          [metadataURL unavailableEnv lat39 lonMinus104]) ∧
      (forecastHandler unavailableEnv sampleRequest).1.status = 500 ∧
      (∃ rest, (forecastHandler unavailableEnv sampleRequest).1.body
        = .text ("Error fetching forecast URL" ++ rest))) :=
  ⟨by decide, by decide, rfl, rfl,
    ⟨⟨503, "503 Service Unavailable", .ok ""⟩, rfl, rfl,
      forecastHandler_metadata_status unavailableEnv sampleRequest lat39 lonMinus104
        ⟨503, "503 Service Unavailable", .ok ""⟩ (by decide) (by decide) rfl rfl rfl
        (by decide)⟩⟩

/-- C5: for every request with valid `lat` and `lon` whose metadata fetch
yields a forecast URL, if the forecast fetch is answered with status 200 and a
body that decodes to a response with no periods, `GetTodaysWeatherForcast`
returns the error "no forecast periods found" and the handler replies through
`http.Error` with status 500 and a message that contains
"no forecast periods found". -/
theorem forecastHandler_no_periods (env : Env) (r : Request) (lat lon : Float64)
    (forecastURL body : String) (t : List String) (resp : Response)
    (forecast : ForecastResponse)
    (hlat : r.Get "lat" ≠ "") (hlon : r.Get "lon" ≠ "")
    (hplat : env.ParseFloat (r.Get "lat") = .ok lat)
    (hplon : env.ParseFloat (r.Get "lon") = .ok lon)
    (hmeta : GetForecastURL env [] (metadataURL env lat lon) = (.ok forecastURL, t))
    (hget : env.Get t forecastURL = .ok resp)
    (hstatus : resp.StatusCode = 200)
    (hbody : resp.Body = .ok body)
    (hjson : env.UnmarshalForecast body = .ok forecast)
    (hperiods : forecast.Properties.Periods = []) :
    GetTodaysWeatherForcast env t forecastURL
      = (.error "no forecast periods found", t ++ [forecastURL]) ∧
    forecastHandler env r =
      (httpError "Error fetching today\x27s temperature: no forecast periods found" 500,
        [metadataURL env lat lon, forecastURL]) ∧
    (forecastHandler env r).1.status = 500 ∧
    (∃ pre post, (forecastHandler env r).1.body
      = .text (pre ++ "no forecast periods found" ++ post)) := by
  have ht : t = [metadataURL env lat lon] := by
    have h := GetForecastURL_trace env [] (metadataURL env lat lon)
    rw [hmeta] at h
    simpa using h
  have hfetch : GetTodaysWeatherForcast env t forecastURL
      = (.error "no forecast periods found", t ++ [forecastURL]) := by
    simp [GetTodaysWeatherForcast, FetchURL_of_ok env t forecastURL resp hget hstatus,
      hbody, hjson, hperiods]
  have key : forecastHandler env r =
      (httpError "Error fetching today\x27s temperature: no forecast periods found" 500,
        [metadataURL env lat lon, forecastURL]) := by
    rw [forecastHandler_of_valid env r lat lon hlat hlon hplat hplon, hmeta]
    simp only [hfetch]
    have hs : "Error fetching today\x27s temperature: " ++ "no forecast periods found"
        = "Error fetching today\x27s temperature: no forecast periods found" := by decide
    rw [hs, ht]
    rfl
  refine ⟨hfetch, key, by rw [key]; rfl, ?_⟩
  refine ⟨"Error fetching today\x27s temperature: ", "\n", ?_⟩
  rw [key]
  simp only [httpError, Body.text.injEq]
  decide

/-- Instance of C5: the forecast document has an empty `periods` array. -/
theorem forecastHandler_no_periods_witness :
    sampleRequest.Get "lat" ≠ "" ∧ sampleRequest.Get "lon" ≠ "" ∧
    emptyPeriodsEnv.ParseFloat (sampleRequest.Get "lat") = .ok lat39 ∧
    emptyPeriodsEnv.ParseFloat (sampleRequest.Get "lon") = .ok lonMinus104 ∧
    GetForecastURL emptyPeriodsEnv [] (metadataURL emptyPeriodsEnv lat39 lonMinus104)
      = (.ok gridURL, [pointsURL]) ∧
    emptyPeriodsEnv.Get [pointsURL] gridURL
      = .ok ⟨200, "200 OK", .ok "forecast document without periods"⟩ ∧
    emptyPeriodsEnv.UnmarshalForecast "forecast document without periods" = .ok ⟨⟨[]⟩⟩ ∧
    (GetTodaysWeatherForcast emptyPeriodsEnv [pointsURL] gridURL
      = (.error "no forecast periods found", [pointsURL] ++ [gridURL]) ∧
    forecastHandler emptyPeriodsEnv sampleRequest =
      (httpError "Error fetching today\x27s temperature: no forecast periods found" 500,
        [metadataURL emptyPeriodsEnv lat39 lonMinus104, gridURL]) ∧
    (forecastHandler emptyPeriodsEnv sampleRequest).1.status = 500 ∧
    (∃ pre post, (forecastHandler emptyPeriodsEnv sampleRequest).1.body
      = .text (pre ++ "no forecast periods found" ++ post))) :=
  ⟨by decide, by decide, rfl, rfl, rfl, rfl, rfl,
    forecastHandler_no_periods emptyPeriodsEnv sampleRequest lat39 lonMinus104 gridURL
      "forecast document without periods" [pointsURL]
      ⟨200, "200 OK", .ok "forecast document without periods"⟩ ⟨⟨[]⟩⟩
      (by decide) (by decide) rfl rfl rfl rfl rfl rfl rfl rfl⟩

/-- The metadata fetch yields a forecast URL exactly when the upstream answers
with status 200, the body is read and it decodes; the URL is the decoded
`properties.forecast`. -/
theorem GetForecastURL_ok_iff (env : Env) (trace : List String) (url forecastURL : String) :
    (GetForecastURL env trace url).1 = .ok forecastURL ↔
      ∃ resp body metadata, env.Get trace url = .ok resp ∧ resp.StatusCode = 200 ∧
        resp.Body = .ok body ∧ env.UnmarshalMetadata body = .ok metadata ∧
        metadata.Properties.Forecast = forecastURL := by
  unfold GetForecastURL FetchURL
  cases hget : env.Get trace url with
  | error e => simp
  | ok resp =>
    by_cases hs : resp.StatusCode = 200
    · cases hb : resp.Body with
      | error e => simp [StatusOK, hs, hb]
      | ok body =>
        cases hj : env.UnmarshalMetadata body with
        | error e => simp [StatusOK, hs, hb, hj]
        | ok metadata => simp [StatusOK, hs, hb, hj]
    · simp [StatusOK, hs]

/-- C6, as the code has it: for all valid `lat` and `lon` and every behaviour of
the upstream, the handler issues the metadata fetch first, for the URL built
from `lat` and `lon`; it issues a second fetch, for the forecast URL extracted
from the metadata response, exactly when the metadata fetch yields one (status
200, body read and decoded), and no further fetch. -/
theorem forecastHandler_fetch_sequence (env : Env) (r : Request) (lat lon : Float64)
    (hlat : r.Get "lat" ≠ "") (hlon : r.Get "lon" ≠ "")
    (hplat : env.ParseFloat (r.Get "lat") = .ok lat)
    (hplon : env.ParseFloat (r.Get "lon") = .ok lon) :
    (forecastHandler env r).2 =
      metadataURL env lat lon ::
        (match (GetForecastURL env [] (metadataURL env lat lon)).1 with
          | .ok forecastURL => [forecastURL]
          | .error _ => []) ∧
    (∀ forecastURL, (GetForecastURL env [] (metadataURL env lat lon)).1 = .ok forecastURL ↔
      ∃ resp body metadata, env.Get [] (metadataURL env lat lon) = .ok resp ∧
        resp.StatusCode = 200 ∧ resp.Body = .ok body ∧
        env.UnmarshalMetadata body = .ok metadata ∧
        metadata.Properties.Forecast = forecastURL) := by
  refine ⟨?_, fun u => GetForecastURL_ok_iff env [] _ u⟩
  rw [forecastHandler_of_valid env r lat lon hlat hlon hplat hplon]
  have htr := GetForecastURL_trace env [] (metadataURL env lat lon)
  rcases hm : GetForecastURL env [] (metadataURL env lat lon) with ⟨res, t⟩
  rw [hm] at htr
  simp only [List.nil_append] at htr
  subst htr
  cases res with
  | error e => rfl
  | ok u =>
    have htr2 := GetTodaysWeatherForcast_trace env [metadataURL env lat lon] u
    rcases hf : GetTodaysWeatherForcast env [metadataURL env lat lon] u with ⟨res2, t2⟩
    rw [hf] at htr2
    simp only [List.singleton_append] at htr2
    subst htr2
    cases res2 <;> simp [hf]

/-- Instance of C6 as amended: the healthy sample upstream, two fetches. -/
theorem forecastHandler_fetch_sequence_witness :
    sampleRequest.Get "lat" ≠ "" ∧ sampleRequest.Get "lon" ≠ "" ∧
    sampleEnv.ParseFloat (sampleRequest.Get "lat") = .ok lat39 ∧
    sampleEnv.ParseFloat (sampleRequest.Get "lon") = .ok lonMinus104 ∧
    ((forecastHandler sampleEnv sampleRequest).2 =
      metadataURL sampleEnv lat39 lonMinus104 ::
        (match (GetForecastURL sampleEnv [] (metadataURL sampleEnv lat39 lonMinus104)).1 with
          | .ok forecastURL => [forecastURL]
          | .error _ => []) ∧
    (∀ forecastURL,
      (GetForecastURL sampleEnv [] (metadataURL sampleEnv lat39 lonMinus104)).1
        = .ok forecastURL ↔
      ∃ resp body metadata,
        sampleEnv.Get [] (metadataURL sampleEnv lat39 lonMinus104) = .ok resp ∧
        resp.StatusCode = 200 ∧ resp.Body = .ok body ∧
        sampleEnv.UnmarshalMetadata body = .ok metadata ∧
        metadata.Properties.Forecast = forecastURL)) :=
  ⟨by decide, by decide, rfl, rfl,
    forecastHandler_fetch_sequence sampleEnv sampleRequest lat39 lonMinus104
      (by decide) (by decide) rfl rfl⟩

/-- C6 as stated fails: `lat` and `lon` are present and parse, the upstream
answers the metadata fetch with 503, and the handler issues one outbound fetch
only, not two. -/
theorem forecastHandler_two_fetches_counterexample :
    sampleRequest.Get "lat" ≠ "" ∧ sampleRequest.Get "lon" ≠ "" ∧
    unavailableEnv.ParseFloat (sampleRequest.Get "lat") = .ok lat39 ∧
    unavailableEnv.ParseFloat (sampleRequest.Get "lon") = .ok lonMinus104 ∧
    (forecastHandler unavailableEnv sampleRequest).2 = [pointsURL] ∧
    (forecastHandler unavailableEnv sampleRequest).2.length ≠ 2 :=
  ⟨by decide, by decide, rfl, rfl, by decide, by decide⟩

/-- The success path for finite coordinates: when `lat` and `lon` parse to
values that are neither `NaN` nor infinite, the metadata fetch yields a
forecast URL and the forecast fetch is answered with status 200 and a body
that decodes to a response with at least one period, the handler emits, with
status 200, a JSON object with exactly the five keys `latitude`, `longitude`,
`shortForecast`, `temperature`, `temperatureDescription`: the parsed
coordinates, the fields of the first period and the description of its
temperature. -/
theorem forecastHandler_success_of_finite (env : Env) (r : Request) (lat lon : Float64)
    (forecastURL body : String) (t : List String) (resp : Response)
    (forecast : ForecastResponse) (period : ForecastPeriod) (rest : List ForecastPeriod)
    (hlat : r.Get "lat" ≠ "") (hlon : r.Get "lon" ≠ "")
    (hplat : env.ParseFloat (r.Get "lat") = .ok lat)
    (hplon : env.ParseFloat (r.Get "lon") = .ok lon)
    (hflat : lat.isNaNOrInf = false) (hflon : lon.isNaNOrInf = false)
    (hmeta : GetForecastURL env [] (metadataURL env lat lon) = (.ok forecastURL, t))
    (hget : env.Get t forecastURL = .ok resp)
    (hstatus : resp.StatusCode = 200)
    (hbody : resp.Body = .ok body)
    (hjson : env.UnmarshalForecast body = .ok forecast)
    (hperiods : forecast.Properties.Periods = period :: rest) :
    forecastHandler env r =
      ({ status := 200
         contentType := "application/json"
         body := .json
          [ ("latitude", .float lat),
            ("longitude", .float lon),
            ("shortForecast", .string period.ShortForecast),
            ("temperature", .int period.Temperature),
            ("temperatureDescription",
              .string (GetTemperatureDescription env.RangeOrder period.Temperature)) ] },
        [metadataURL env lat lon, forecastURL]) := by
  have ht : t = [metadataURL env lat lon] := by
    have h := GetForecastURL_trace env [] (metadataURL env lat lon)
    rw [hmeta] at h
    simpa using h
  have hfetch : GetTodaysWeatherForcast env t forecastURL
      = (.ok period, t ++ [forecastURL]) := by
    simp [GetTodaysWeatherForcast, FetchURL_of_ok env t forecastURL resp hget hstatus,
      hbody, hjson, hperiods]
  rw [forecastHandler_of_valid env r lat lon hlat hlon hplat hplon, hmeta]
  simp only [hfetch]
  rw [ht]
  simp [encodeReply, responseMap, Value.unsupported, hflat, hflon, StatusOK]

/-- The success path at the sample request and the healthy sample upstream. -/
theorem forecastHandler_success_sample :
    forecastHandler sampleEnv sampleRequest =
      ({ status := 200
         contentType := "application/json"
         body := .json
          [ ("latitude", .float lat39),
            ("longitude", .float lonMinus104),
            ("shortForecast", .string "Sunny"),
            ("temperature", .int 45),
            ("temperatureDescription", .string "cold") ] },
        [pointsURL, gridURL]) := by
  decide

/-- C7 fails at a `NaN` latitude: for the request `/forecast?lat=NaN&lon=-104.9974`
the parameter parses (to `NaN`), both upstream fetches are answered with status
200 and bodies that decode, the forecast has two periods, and yet the handler
emits no JSON object: the encoder rejects `NaN`, the handler drops its error,
and the reply is a 200 with an empty body. -/
theorem forecastHandler_nan_latitude :
    nanRequest.Get "lat" = "NaN" ∧
    lenientEnv.ParseFloat (nanRequest.Get "lat") = .ok goNaN ∧
    lenientEnv.ParseFloat (nanRequest.Get "lon") = .ok lonMinus104 ∧
    goNaN.isNaNOrInf = true ∧
    GetForecastURL lenientEnv [] (metadataURL lenientEnv goNaN lonMinus104)
      = (.ok gridURL, [nanPointsURL]) ∧
    GetTodaysWeatherForcast lenientEnv [nanPointsURL] gridURL
      = (.ok ⟨"Today", 45, "Sunny"⟩, [nanPointsURL, gridURL]) ∧
    forecastHandler lenientEnv nanRequest =
      ({ status := 200, contentType := "application/json", body := .empty },
        [nanPointsURL, gridURL]) :=
  ⟨by decide, rfl, rfl, by decide, rfl, rfl, by decide⟩

end Forecast
